import Mathlib

/-!
Verification development for the retrieval-augmented chat pipeline of
`src/app.py` (a single-file Streamlit chatbot).  The Python source is
shallowly embedded below: the knowledge base, the substring retriever
`get_relevant_info`, the prompt composition `augmented_prompt`, the
dual-list session history (`st.session_state.messages` /
`st.session_state.gemini_history`), and the streaming loop that folds
response chunks into `full_response` while emitting markdown events.
-/

/-- Model of Python `str.lower()`, applied character-wise.  All strings
handled by the program (triggers, documents, example queries) are ASCII,
where `Char.toLower` agrees with Python's case folding. -/
def pyLower (s : String) : String := String.mk (s.data.map Char.toLower)

/-- Auxiliary for substring search: does `pat` (second argument) occur at
the very start of `hay` (first argument)? -/
def matchesAt : List Char → List Char → Bool
  | _, [] => true
  | [], _ :: _ => false
  | c :: cs, p :: ps => c == p && matchesAt cs ps

/-- Does `pat` occur (contiguously) anywhere inside the second list? -/
def subOccurs (pat : List Char) : List Char → Bool
  | [] => matchesAt [] pat
  | c :: rest => matchesAt (c :: rest) pat || subOccurs pat rest

/-- Model of the Python expression `pat in hay` for strings (raw substring
containment), as used by the test `if keyword in query` in
`get_relevant_info` (src/app.py line 101). -/
def pyContains (hay pat : String) : Bool := subOccurs pat.data hay.data

/-- The document stored under the trigger "no internet"
(src/app.py lines 45-59), transcribed verbatim. -/
def noInternetDoc : String := "
    ### Troubleshooting 'No Internet Connection'

    1.  **Check Physical Connections:** Ensure all cables (Ethernet, power) are securely plugged into the modem, router, and your computer. Look for any damaged or loose cables.
    2.  **Restart Devices:**
        * Unplug the power from your modem and router.
        * Wait for 30 seconds.
        * Plug the modem back in and wait for all lights to stabilize.
        * Plug the router back in and wait for it to boot up.
        * Restart your computer or device.
    3.  **Check Indicator Lights:** On your modem and router, a solid green or blue light usually indicates a healthy connection. A red or blinking light often signals a problem. Check the manual for specific meanings.
    4.  **Test with Another Device:** Try connecting to the internet with a different device (e.g., phone or tablet) to see if the issue is with your computer or the network itself.
    5.  **Run Network Troubleshooter:** On Windows, use the built-in troubleshooter. On macOS, use Wireless Diagnostics. These can often identify common issues.
    6.  **Contact Your ISP:** If all else fails, the problem may be on your Internet Service Provider's end. Contact their support for assistance.
    "

/-- The document stored under the trigger "slow network"
(src/app.py lines 60-69), transcribed verbatim. -/
def slowNetworkDoc : String := "
    ### Troubleshooting 'Slow Network Speed'

    1.  **Run a Speed Test:** Use a reliable service like speedtest.net to measure your current download and upload speeds. This confirms if the issue is with your overall connection speed.
    2.  **Reduce Connected Devices:** A large number of devices using the network simultaneously can slow it down. Disconnect unused devices.
    3.  **Check for Background Downloads:** Ensure no large files are downloading or updating in the background on any device.
    4.  **Restart Your Router:** Rebooting the router can clear its cache and improve performance.
    5.  **Check Wi-Fi Signal Strength:** Move closer to your router or use a Wi-Fi analyzer app to check for signal interference.
    6.  **Update Router Firmware:** Check your router's manufacturer website for any available firmware updates, which can improve performance and security.
    "

/-- The document stored under the trigger "wi-fi not working"
(src/app.py lines 70-78), transcribed verbatim. -/
def wifiNotWorkingDoc : String := "
    ### Troubleshooting 'Wi-Fi Connection Issues'

    1.  **Check Wi-Fi Switch:** Many laptops and some desktops have a physical switch or key combination to turn Wi-Fi on or off.
    2.  **Forget and Reconnect:** On your device, \"forget\" the Wi-Fi network and then try to connect to it again, entering the password as if it were a new connection.
    3.  **Verify Password:** Double-check that you are entering the correct Wi-Fi password.
    4.  **Move Closer to the Router:** Physical distance and obstacles can degrade Wi-Fi signal quality.
    5.  **Check for Interference:** Other electronic devices, like microwaves and cordless phones, can interfere with your Wi-Fi signal.
    "

/-- The document stored under the trigger "ip address"
(src/app.py lines 79-90), transcribed verbatim. -/
def ipAddressDoc : String := "
    ### Finding and Renewing Your IP Address

    **To find your IP address:**
    * **Windows:** Open Command Prompt and type `ipconfig`.
    * **macOS:** Open Terminal and type `ifconfig` or check System Settings > Network.
    * **Linux:** Open Terminal and type `ifconfig` or `ip addr show`.

    **To renew your IP address:**
    * **Windows:** Open Command Prompt and type `ipconfig /release` followed by `ipconfig /renew`.
    * **macOS / Linux:** Open Terminal and type `sudo dhclient -r` followed by `sudo dhclient`.
    "

/-- The knowledge base dict of src/app.py lines 44-91, as the ordered list
of its entries.  Python dicts preserve insertion order, and
`get_relevant_info` iterates `NETWORK_TROUBLESHOOTING_KB.items()` in this
fixed order. -/
def NETWORK_TROUBLESHOOTING_KB : List (String × String) :=
  [("no internet", noInternetDoc),
   ("slow network", slowNetworkDoc),
   ("wi-fi not working", wifiNotWorkingDoc),
   ("ip address", ipAddressDoc)]

/-- The fallback return value of `get_relevant_info` (src/app.py line 103). -/
def fallbackMsg : String :=
  "No specific guide found. I will try to answer based on my general knowledge."

/-- The `for keyword, content in ... items(): if keyword in query: return content`
loop of `get_relevant_info` (src/app.py lines 100-102), over an arbitrary
entry list; returns `none` when the loop falls through. -/
def lookupKB : List (String × String) → String → Option String
  | [], _ => none
  | kv :: rest, q => if pyContains q kv.1 then some kv.2 else lookupKB rest q

/-- `get_relevant_info` (src/app.py lines 93-103): lower-case the query,
scan the knowledge base in order, return the first matching document, or
the fallback message. -/
def get_relevant_info (query : String) : String :=
  match lookupKB NETWORK_TROUBLESHOOTING_KB (pyLower query) with
  | some content => content
  | none => fallbackMsg

/-- The fixed instruction at the head of the augmented prompt: the three
leading sentences of the f-string at src/app.py lines 144-147 (Python
concatenates the adjacent literals, including the trailing blank line). -/
def promptInstruction : String :=
  "You are a helpful and expert network troubleshooting assistant. Use the following information to guide the user and provide a detailed, step-by-step solution. Do not invent information beyond the context or your general knowledge.\n\n"

/-- `augmented_prompt` (src/app.py lines 144-150): instruction, then the
"Context" block holding the retrieved document, then the "User's request"
block holding the raw user text. -/
def augmented_prompt (retrieved_info prompt : String) : String :=
  promptInstruction ++ "Context:\n" ++ retrieved_info ++ "\n\n" ++ "User's request:\n" ++ prompt

/-- Modelled from the spec: the PromptComposer contract of spec section 4.2,
`compose(instruction, retrieved, userText)` laid out as the role
instruction, a labeled Context block containing exactly `retrieved`, and a
labeled User-request block containing exactly `userText`.  Used to compare
the source's `augmented_prompt` against the spec's wording. -/
def composeSpec (instruction retrieved userText : String) : String :=
  instruction ++ ("Context:\n" ++ (retrieved ++ ("\n\n" ++ ("User's request:\n" ++ userText))))

/-- One display-history entry of `st.session_state.messages`
(src/app.py lines 136 and 171): a role/content pair. -/
structure ChatMessage where
  role : String
  content : String
deriving DecidableEq

/-- One protocol-history entry of `st.session_state.gemini_history`
(src/app.py lines 137 and 172): a role with a list of text parts. -/
structure ModelTurn where
  role : String
  parts : List String
deriving DecidableEq

/-- The per-session state: the display transcript and the protocol
transcript (src/app.py lines 115-117). -/
structure SessionState where
  messages : List ChatMessage
  gemini_history : List ModelTurn
deriving DecidableEq

/-- Initial session state (both histories empty, src/app.py lines 116-117). -/
def initialSession : SessionState := ⟨[], []⟩

/-- Outcome of consuming the streamed response of `chat.send_message`:
either the full finite chunk sequence is yielded, or the stream raises
after yielding some prefix of chunks (the except branch of
src/app.py lines 174-176 then runs). -/
inductive StreamOutcome where
  | ok : List String → StreamOutcome
  | err : List String → StreamOutcome
deriving DecidableEq

/-- The cursor marker appended to each incremental markdown event
(src/app.py line 167). -/
def cursorMarker : String := "▌"

/-- One iteration of `for chunk in response` (src/app.py lines 163-167):
the state is `full_response` so far paired with the markdown events
emitted so far; the chunk is appended to the buffer and one incremental
event carrying the buffer plus the cursor marker is emitted. -/
def streamStep (acc : String × List String) (chunk : String) : String × List String :=
  (acc.1 ++ chunk, acc.2 ++ [acc.1 ++ chunk ++ cursorMarker])

/-- Running the whole streaming loop from the empty buffer. -/
def runStream (chunks : List String) : String × List String :=
  chunks.foldl streamStep ("", [])

/-- The `full_response` value after the loop (src/app.py lines 161-165). -/
def full_response (chunks : List String) : String := (runStream chunks).1

/-- Every markdown call made on the placeholder: the incremental events of
the loop followed by the final `message_placeholder.markdown(full_response)`
without cursor (src/app.py line 168). -/
def displayEvents (chunks : List String) : List String :=
  (runStream chunks).2 ++ [full_response chunks]

/-- One user turn (src/app.py lines 130-176): append the user message to
both histories, retrieve, compose the augmented prompt and send it;
on a successful stream append the assistant/model pair holding
`full_response`, on a raised stream append nothing further.  `remote` maps
the sent prompt to the stream outcome the service produces for it. -/
def handle_turn (s : SessionState) (prompt : String) (remote : String → StreamOutcome) :
    SessionState :=
  let appended : SessionState :=
    ⟨s.messages ++ [⟨"user", prompt⟩], s.gemini_history ++ [⟨"user", [prompt]⟩]⟩
  let retrieved_info := get_relevant_info prompt
  match remote (augmented_prompt retrieved_info prompt) with
  | StreamOutcome.ok chunks =>
      ⟨appended.messages ++ [⟨"assistant", full_response chunks⟩],
       appended.gemini_history ++ [⟨"model", [full_response chunks]⟩]⟩
  | StreamOutcome.err _ => appended

/-- A whole session: fold `handle_turn` over a sequence of user turns,
starting from the empty histories. -/
def runTurns (turns : List (String × (String → StreamOutcome))) : SessionState :=
  turns.foldl (fun s t => handle_turn s t.1 t.2) initialSession

/-- In-order concatenation of a list of strings. -/
def strConcat : List String → String
  | [] => ""
  | s :: rest => s ++ strConcat rest

/-- The running buffers of the streaming loop started from buffer `acc`:
one entry per chunk, each the concatenation of `acc` with the chunks
consumed so far. -/
def runningBuffers : String → List String → List String
  | _, [] => []
  | acc, c :: rest => (acc ++ c) :: runningBuffers (acc ++ c) rest

/-- Positional correspondence between a display role tag and a protocol
role tag, as the spec's history-synchronization invariant states it. -/
def roleRel (r p : String) : Prop :=
  (r = "user" ↔ p = "user") ∧ (r = "assistant" ↔ p = "model")

/-- The two history lists correspond positionally (hence have equal
length). -/
def synced (s : SessionState) : Prop :=
  List.Forall₂ roleRel (s.messages.map ChatMessage.role)
    (s.gemini_history.map ModelTurn.role)

/-- Appending the empty string on the left is the identity. -/
lemma empty_append_str (s : String) : "" ++ s = s := by
  cases s
  rfl

/-- `strConcat` distributes over list append. -/
lemma strConcat_append (a b : List String) : strConcat (a ++ b) = strConcat a ++ strConcat b := by
  induction a with
  | nil => simp [strConcat, empty_append_str]
  | cons s rest ih => simp [strConcat, ih, String.append_assoc]

/-- Extending a `take` by one position extends the concatenation by a
suffix. -/
lemma concat_take_step (l : List String) (i : Nat) :
    ∃ t : String, strConcat (l.take (i + 1)) = strConcat (l.take i) ++ t := by
  by_cases h : i < l.length
  · refine ⟨l.get ⟨i, h⟩ ++ "", ?_⟩
    have ht : l.take (i + 1) = l.take i ++ [l.get ⟨i, h⟩] := by
      rw [List.take_succ, List.getElem?_eq_getElem h]
      simp
    rw [ht, strConcat_append]
    rfl
  · push_neg at h
    refine ⟨"", ?_⟩
    rw [List.take_of_length_le h, List.take_of_length_le (h.trans (Nat.le_succ i)),
      String.append_empty]

/-- `matchesAt hay pat` holds exactly when `pat` is an initial segment of
`hay`. -/
lemma matchesAt_iff : ∀ (pat hay : List Char), matchesAt hay pat = true ↔ ∃ suf, hay = pat ++ suf := by
  intro pat
  induction pat with
  | nil =>
    intro hay
    simp [matchesAt]
  | cons p ps ih =>
    intro hay
    cases hay with
    | nil => simp [matchesAt]
    | cons c cs =>
      rw [show matchesAt (c :: cs) (p :: ps) = (c == p && matchesAt cs ps) from rfl]
      simp only [Bool.and_eq_true, beq_iff_eq, ih cs, List.cons_append, List.cons.injEq]
      constructor
      · rintro ⟨hc, suf, hs⟩
        exact ⟨suf, hc, hs⟩
      · rintro ⟨suf, hc, hs⟩
        exact ⟨hc, suf, hs⟩

/-- `subOccurs pat hay` holds exactly when `pat` occurs contiguously
inside `hay`. -/
lemma subOccurs_iff : ∀ (hay pat : List Char),
    subOccurs pat hay = true ↔ ∃ pre suf, hay = pre ++ (pat ++ suf) := by
  intro hay
  induction hay with
  | nil =>
    intro pat
    rw [show subOccurs pat [] = matchesAt [] pat from rfl, matchesAt_iff]
    constructor
    · rintro ⟨suf, hs⟩
      exact ⟨[], suf, by simpa using hs⟩
    · rintro ⟨pre, suf, hs⟩
      rcases List.append_eq_nil.mp hs.symm with ⟨hpre, hrest⟩
      exact ⟨suf, by simp [hrest]⟩
  | cons c rest ih =>
    intro pat
    rw [show subOccurs pat (c :: rest) = (matchesAt (c :: rest) pat || subOccurs pat rest) from rfl]
    simp only [Bool.or_eq_true, matchesAt_iff, ih]
    constructor
    · rintro (⟨suf, hs⟩ | ⟨pre, suf, hs⟩)
      · exact ⟨[], suf, by simpa using hs⟩
      · exact ⟨c :: pre, suf, by simp [hs]⟩
    · rintro ⟨pre, suf, hs⟩
      cases pre with
      | nil => exact Or.inl ⟨suf, by simpa using hs⟩
      | cons x xs =>
        simp only [List.cons_append, List.cons.injEq] at hs
        exact Or.inr ⟨xs, suf, hs.2⟩

/-- The Python membership test `pat in hay` modelled by `pyContains` is
raw substring containment: it succeeds exactly when `hay` splits as some
prefix, then `pat`, then some suffix — with no word-boundary condition. -/
lemma pyContains_spec (hay pat : String) :
    pyContains hay pat = true ↔ ∃ pre suf : String, hay = pre ++ (pat ++ suf) := by
  unfold pyContains
  rw [subOccurs_iff]
  constructor
  · rintro ⟨preL, sufL, h⟩
    refine ⟨⟨preL⟩, ⟨sufL⟩, ?_⟩
    cases hay with
    | mk hl =>
      cases pat with
      | mk pl =>
        simpa using congrArg String.mk h
  · rintro ⟨pre, suf, h⟩
    refine ⟨pre.data, suf.data, ?_⟩
    rw [h]
    cases pre
    cases pat
    cases suf
    rfl

/-- First-match behaviour of the scan loop: if entry `i` matches and no
earlier entry does, the loop returns entry `i`'s document. -/
lemma lookupKB_first :
    ∀ (kb : List (String × String)) (q : String) (i : Nat) (h : i < kb.length),
      pyContains q (kb.get ⟨i, h⟩).1 = true →
      (∀ j (hj : j < i), pyContains q (kb.get ⟨j, Nat.lt_trans hj h⟩).1 = false) →
      lookupKB kb q = some (kb.get ⟨i, h⟩).2 := by
  intro kb
  induction kb with
  | nil =>
    intro q i h
    exact absurd h (by simp)
  | cons kv rest ih =>
    intro q i h hit hfirst
    cases i with
    | zero =>
      rw [show lookupKB (kv :: rest) q = (if pyContains q kv.1 then some kv.2 else lookupKB rest q) from rfl]
      rw [show ((kv :: rest).get ⟨0, h⟩) = kv from rfl] at hit ⊢
      rw [hit]
      simp
    | succ i' =>
      have h0 : pyContains q kv.1 = false := hfirst 0 (Nat.succ_pos i')
      rw [show lookupKB (kv :: rest) q = (if pyContains q kv.1 then some kv.2 else lookupKB rest q) from rfl]
      rw [h0]
      simp only [Bool.false_eq_true, if_false]
      have h' : i' < rest.length := Nat.succ_lt_succ_iff.mp h
      have hit' : pyContains q (rest.get ⟨i', h'⟩).1 = true := hit
      have hfirst' : ∀ j (hj : j < i'), pyContains q (rest.get ⟨j, Nat.lt_trans hj h'⟩).1 = false :=
        fun j hj => hfirst (j + 1) (Nat.succ_lt_succ hj)
      exact ih q i' h' hit' hfirst'

/-- When no entry matches, the scan loop falls through. -/
lemma lookupKB_none :
    ∀ (kb : List (String × String)) (q : String),
      (∀ kv ∈ kb, pyContains q kv.1 = false) → lookupKB kb q = none := by
  intro kb
  induction kb with
  | nil =>
    intro q _
    rfl
  | cons kv rest ih =>
    intro q h
    have h0 : pyContains q kv.1 = false := h kv (List.mem_cons_self kv rest)
    rw [show lookupKB (kv :: rest) q = (if pyContains q kv.1 then some kv.2 else lookupKB rest q) from rfl]
    rw [h0]
    simp only [Bool.false_eq_true, if_false]
    exact ih q (fun p hp => h p (List.mem_cons_of_mem kv hp))

/-- Whatever the scan loop returns came from some entry of the list. -/
lemma lookupKB_some_mem :
    ∀ (kb : List (String × String)) (q : String) (c : String),
      lookupKB kb q = some c → ∃ kv, kv ∈ kb ∧ kv.2 = c := by
  intro kb
  induction kb with
  | nil =>
    intro q c h
    exact absurd h (by simp [lookupKB])
  | cons kv rest ih =>
    intro q c h
    rw [show lookupKB (kv :: rest) q = (if pyContains q kv.1 then some kv.2 else lookupKB rest q) from rfl] at h
    by_cases hm : pyContains q kv.1 = true
    · rw [hm] at h
      simp only [if_true] at h
      exact ⟨kv, List.mem_cons_self kv rest, Option.some.inj h⟩
    · rw [Bool.not_eq_true] at hm
      rw [hm] at h
      simp only [Bool.false_eq_true, if_false] at h
      obtain ⟨p, hp, hc⟩ := ih q c h
      exact ⟨p, List.mem_cons_of_mem kv hp, hc⟩

/-- Characterization of the streaming fold from an arbitrary starting
state: the final buffer is the start buffer followed by all chunks, and
the emitted events are the running buffers each carrying the cursor
marker. -/
lemma runStream_go :
    ∀ (chunks : List String) (acc : String) (evs : List String),
      chunks.foldl streamStep (acc, evs)
        = (acc ++ strConcat chunks,
           evs ++ (runningBuffers acc chunks).map (fun b => b ++ cursorMarker)) := by
  intro chunks
  induction chunks with
  | nil =>
    intro acc evs
    simp [strConcat, runningBuffers, String.append_empty]
  | cons c rest ih =>
    intro acc evs
    rw [List.foldl_cons,
      show streamStep (acc, evs) c = (acc ++ c, evs ++ [acc ++ c ++ cursorMarker]) from rfl, ih]
    rw [show runningBuffers acc (c :: rest) = (acc ++ c) :: runningBuffers (acc ++ c) rest from rfl]
    rw [show strConcat (c :: rest) = c ++ strConcat rest from rfl]
    simp [String.append_assoc, List.append_assoc]

/-- The streaming loop of src/app.py lines 161-167, run from the empty
buffer. -/
lemma runStream_eq (chunks : List String) :
    runStream chunks
      = (strConcat chunks, (runningBuffers "" chunks).map (fun b => b ++ cursorMarker)) := by
  unfold runStream
  rw [runStream_go]
  simp [empty_append_str]

/-- The running buffers are the concatenations of the successive take
fronts of the chunk list, each preceded by the start buffer. -/
lemma runningBuffers_eq :
    ∀ (chunks : List String) (acc : String),
      runningBuffers acc chunks
        = (List.range chunks.length).map (fun i => acc ++ strConcat (chunks.take (i + 1))) := by
  intro chunks
  induction chunks with
  | nil =>
    intro acc
    simp [runningBuffers]
  | cons c rest ih =>
    intro acc
    rw [show runningBuffers acc (c :: rest) = (acc ++ c) :: runningBuffers (acc ++ c) rest from rfl]
    rw [ih (acc ++ c)]
    rw [show (c :: rest).length = rest.length + 1 from rfl, List.range_succ_eq_map]
    rw [List.map_cons, List.map_map]
    congr 1
    · rw [show List.take (0 + 1) (c :: rest) = [c] from rfl]
      rw [show strConcat [c] = c ++ "" from rfl, String.append_empty]
    · refine List.map_congr_left ?_
      intro i _
      simp only [Function.comp_apply, List.take_succ_cons]
      rw [show strConcat (c :: List.take (i + 1) rest) = c ++ strConcat (List.take (i + 1) rest) from rfl]
      rw [String.append_assoc]

/-- Specialization to the empty start buffer. -/
lemma runningBuffers_empty (chunks : List String) :
    runningBuffers "" chunks
      = (List.range chunks.length).map (fun i => strConcat (chunks.take (i + 1))) := by
  rw [runningBuffers_eq]
  simp [empty_append_str]

/-- The successive take-front concatenations form a prefix chain. -/
lemma chain_concat_take (l : List String) (n : Nat) :
    List.Chain' (fun a b => ∃ t : String, b = a ++ t)
      ((List.range n).map (fun i => strConcat (l.take (i + 1)))) := by
  rw [List.chain'_map]
  cases n with
  | zero => simp
  | succ m =>
    exact (List.chain'_range_succ _ m).mpr fun i _ => concat_take_step l (i + 1)

/-- The user display tag corresponds to the user protocol tag. -/
lemma roleRel_user : roleRel "user" "user" := by
  constructor
  · exact Iff.rfl
  · constructor
    · intro h
      exact absurd h (by decide)
    · intro h
      exact absurd h (by decide)

/-- The assistant display tag corresponds to the model protocol tag. -/
lemma roleRel_assistant : roleRel "assistant" "model" := by
  constructor
  · constructor
    · intro h
      exact absurd h (by decide)
    · intro h
      exact absurd h (by decide)
  · exact iff_of_true rfl rfl

/-- A turn preserves the positional role correspondence of the two
histories. -/
lemma synced_handle (s : SessionState) (p : String) (remote : String → StreamOutcome)
    (h : synced s) : synced (handle_turn s p remote) := by
  unfold synced at h ⊢
  rcases hr : remote (augmented_prompt (get_relevant_info p) p) with chunks | yielded
  · simp only [handle_turn, hr, List.map_append, List.map_cons, List.map_nil]
    exact List.rel_append (List.rel_append h (List.Forall₂.cons roleRel_user List.Forall₂.nil))
      (List.Forall₂.cons roleRel_assistant List.Forall₂.nil)
  · simp only [handle_turn, hr, List.map_append, List.map_cons, List.map_nil]
    exact List.rel_append h (List.Forall₂.cons roleRel_user List.Forall₂.nil)

/-- Any whole session keeps the two histories synchronized. -/
lemma synced_runTurns (turns : List (String × (String → StreamOutcome))) :
    synced (runTurns turns) := by
  unfold runTurns
  have hgen : ∀ (ts : List (String × (String → StreamOutcome))) (s : SessionState),
      synced s → synced (ts.foldl (fun s t => handle_turn s t.1 t.2) s) := by
    intro ts
    induction ts with
    | nil => exact fun s hs => hs
    | cons t rest ih =>
      intro s hs
      rw [List.foldl_cons]
      exact ih (handle_turn s t.1 t.2) (synced_handle s t.1 t.2 hs)
  exact hgen turns initialSession List.Forall₂.nil

/-- C1: if the fragment stream raises at any point after the user's
message has been appended, no assistant message is appended to either the
display history or the protocol history (the buffered fragments are
discarded), while the previously appended user message remains present in
both histories. -/
theorem stream_error_no_commit_c1 (s : SessionState) (prompt : String) (yielded : List String)
    (remote : String → StreamOutcome)
    (h : remote (augmented_prompt (get_relevant_info prompt) prompt) = StreamOutcome.err yielded) :
    (handle_turn s prompt remote).messages = s.messages ++ [⟨"user", prompt⟩]
    ∧ (handle_turn s prompt remote).gemini_history = s.gemini_history ++ [⟨"user", [prompt]⟩] := by
  constructor
  · simp only [handle_turn, h]
  · simp only [handle_turn, h]

/-- Witness for C1: a concrete turn whose stream raises after yielding
the fragments "Par" and "tial" leaves exactly the user entry in each
history. -/
theorem stream_error_no_commit_c1_witness :
    (handle_turn ⟨[], []⟩ "hi" fun _ => StreamOutcome.err ["Par", "tial"]).messages
        = ([] : List ChatMessage) ++ [⟨"user", "hi"⟩]
    ∧ (handle_turn ⟨[], []⟩ "hi" fun _ => StreamOutcome.err ["Par", "tial"]).gemini_history
        = ([] : List ModelTurn) ++ [⟨"user", ["hi"]⟩] :=
  stream_error_no_commit_c1 ⟨[], []⟩ "hi" ["Par", "tial"]
    (fun _ => StreamOutcome.err ["Par", "tial"]) rfl

/-- C2: after any sequence of user turns (each appending the user message
and, on stream success, the assistant message; on stream failure
appending neither assistant entry), the display history and the protocol
history have equal length, and role tags correspond positionally:
index i is "user" in the display list iff "user" in the protocol list,
and "assistant" iff "model". -/
theorem history_sync_c2 (turns : List (String × (String → StreamOutcome))) :
    (runTurns turns).messages.length = (runTurns turns).gemini_history.length
    ∧ List.Forall₂ roleRel ((runTurns turns).messages.map ChatMessage.role)
        ((runTurns turns).gemini_history.map ModelTurn.role) := by
  have h := synced_runTurns turns
  refine ⟨?_, h⟩
  have hl := List.Forall₂.length_eq h
  simpa using hl

/-- C3: for every fragment sequence consumed without error, the assembled
buffer is the in-order concatenation of the fragments; the incremental
events are exactly the running concatenations each followed by the cursor
marker; stripped of the marker these buffers (with the final event) form
a prefix chain; the final event carries the full concatenation with no
marker, and that string is the committed assistant message. -/
theorem streaming_assembly_c3 (chunks : List String) :
    full_response chunks = strConcat chunks
    ∧ displayEvents chunks
        = ((List.range chunks.length).map fun i => strConcat (chunks.take (i + 1)) ++ cursorMarker)
          ++ [strConcat chunks]
    ∧ List.Chain' (fun a b => ∃ t : String, b = a ++ t)
        (((List.range chunks.length).map fun i => strConcat (chunks.take (i + 1)))
          ++ [strConcat chunks])
    ∧ ∀ (s : SessionState) (p : String),
        (handle_turn s p fun _ => StreamOutcome.ok chunks).messages
          = s.messages ++ [⟨"user", p⟩, ⟨"assistant", strConcat chunks⟩] := by
  have h1 : full_response chunks = strConcat chunks := by
    unfold full_response
    rw [runStream_eq]
  have h2 : displayEvents chunks
      = ((List.range chunks.length).map fun i => strConcat (chunks.take (i + 1)) ++ cursorMarker)
        ++ [strConcat chunks] := by
    unfold displayEvents
    rw [h1, runStream_eq]
    rw [show ((strConcat chunks, (runningBuffers "" chunks).map (fun b => b ++ cursorMarker))).2
        = (runningBuffers "" chunks).map (fun b => b ++ cursorMarker) from rfl]
    rw [runningBuffers_empty, List.map_map]
    rfl
  have h3 : List.Chain' (fun a b => ∃ t : String, b = a ++ t)
      (((List.range chunks.length).map fun i => strConcat (chunks.take (i + 1)))
        ++ [strConcat chunks]) := by
    have hsplit : (((List.range chunks.length).map fun i => strConcat (chunks.take (i + 1)))
          ++ [strConcat chunks])
        = (List.range (chunks.length + 1)).map fun i => strConcat (chunks.take (i + 1)) := by
      rw [List.range_succ, List.map_append, List.map_cons, List.map_nil]
      rw [List.take_of_length_le (Nat.le_succ chunks.length)]
    rw [hsplit]
    exact chain_concat_take chunks (chunks.length + 1)
  refine ⟨h1, h2, h3, ?_⟩
  intro s p
  simp only [handle_turn, h1]
  rw [List.append_assoc]
  rfl

/-- C4: if the normalized query matches the trigger of entry `i` and no
earlier entry's trigger, the lookup returns entry `i`'s document — the
first match in the knowledge base's fixed enumeration order, never a
merge of documents. -/
theorem first_match_c4 (q : String) (i : Nat) (h : i < NETWORK_TROUBLESHOOTING_KB.length)
    (hit : pyContains (pyLower q) (NETWORK_TROUBLESHOOTING_KB.get ⟨i, h⟩).1 = true)
    (hfirst : ∀ j (hj : j < i),
      pyContains (pyLower q) (NETWORK_TROUBLESHOOTING_KB.get ⟨j, Nat.lt_trans hj h⟩).1 = false) :
    get_relevant_info q = (NETWORK_TROUBLESHOOTING_KB.get ⟨i, h⟩).2 := by
  unfold get_relevant_info
  rw [lookupKB_first NETWORK_TROUBLESHOOTING_KB (pyLower q) i h hit hfirst]

/-- Witness for C4: a query containing both the "no internet" and the
"slow network" triggers resolves to the "no internet" document, the
first of the two in enumeration order. -/
theorem first_match_c4_witness :
    get_relevant_info "there is no internet and the slow network persists" = noInternetDoc :=
  first_match_c4 "there is no internet and the slow network persists" 0 (by decide)
    (by decide) (fun j hj => absurd hj (Nat.not_lt_zero j))

/-- C5 counterexample: for the input "My wifi is not working" the claim
fails on the code — the trigger "wi-fi not working" is not a substring of
the lower-cased query (the query lacks the hyphen and has an extra "is"),
so the retriever returns the fallback notice, not the Wi-Fi document. -/
theorem wifi_query_mismatch_c5 :
    pyContains (pyLower "My wifi is not working") "wi-fi not working" = false
    ∧ get_relevant_info "My wifi is not working" = fallbackMsg
    ∧ fallbackMsg ≠ wifiNotWorkingDoc := by
  refine ⟨by decide, by decide, by decide⟩

set_option maxRecDepth 100000 in
/-- C5 amended: for the input "My wi-fi not working" (which does contain
the trigger "wi-fi not working"), the retriever returns the Wi-Fi
troubleshooting document, and the composed augmented prompt contains that
document verbatim together with the literal user text. -/
theorem wifi_query_match_c5_amended :
    get_relevant_info "My wi-fi not working" = wifiNotWorkingDoc
    ∧ (∃ pre suf : String,
        augmented_prompt (get_relevant_info "My wi-fi not working") "My wi-fi not working"
          = pre ++ (wifiNotWorkingDoc ++ suf))
    ∧ (∃ pre suf : String,
        augmented_prompt (get_relevant_info "My wi-fi not working") "My wi-fi not working"
          = pre ++ ("My wi-fi not working" ++ suf)) := by
  have h : get_relevant_info "My wi-fi not working" = wifiNotWorkingDoc := by decide
  refine ⟨h,
    ⟨promptInstruction ++ "Context:\n",
      "\n\n" ++ ("User's request:\n" ++ "My wi-fi not working"), ?_⟩,
    ⟨promptInstruction ++ "Context:\n" ++ wifiNotWorkingDoc ++ "\n\n" ++ "User's request:\n",
      "", ?_⟩⟩
  · rw [h]
    unfold augmented_prompt
    simp only [String.append_assoc]
  · rw [h]
    unfold augmented_prompt
    simp only [String.append_assoc, String.append_empty]

/-- C6: when no knowledge-base trigger occurs in the lower-cased query,
the lookup returns the fixed fallback string and never any knowledge-base
document. -/
theorem fallback_no_match_c6 (q : String)
    (h : ∀ kv ∈ NETWORK_TROUBLESHOOTING_KB, pyContains (pyLower q) kv.1 = false) :
    get_relevant_info q = fallbackMsg
    ∧ ∀ kv ∈ NETWORK_TROUBLESHOOTING_KB, get_relevant_info q ≠ kv.2 := by
  have hres : get_relevant_info q = fallbackMsg := by
    unfold get_relevant_info
    rw [lookupKB_none NETWORK_TROUBLESHOOTING_KB (pyLower q) h]
  refine ⟨hres, ?_⟩
  intro kv hkv heq
  have hne : ∀ kv ∈ NETWORK_TROUBLESHOOTING_KB, fallbackMsg ≠ kv.2 := by decide
  exact hne kv hkv (hres ▸ heq)

/-- Witness for C6: the query "why is my toaster broken" matches no
trigger and resolves to the fallback notice. -/
theorem fallback_no_match_c6_witness :
    get_relevant_info "why is my toaster broken" = fallbackMsg :=
  (fallback_no_match_c6 "why is my toaster broken" (by decide)).1

/-- C7: prompt composition is a pure deterministic concatenation in the
fixed layout the spec describes — the role instruction first, then a
labeled Context block containing exactly the retrieved document, then a
labeled User-request block containing exactly the user's text. -/
theorem prompt_layout_c7 (retrieved userText : String) :
    augmented_prompt retrieved userText = composeSpec promptInstruction retrieved userText := by
  unfold augmented_prompt composeSpec
  simp only [String.append_assoc]

/-- C8: the lookup is total and deterministic — on every query it returns
a string, which is either the fallback notice or the document of some
knowledge-base entry, and any number of repeated calls on the same query
return the identical output. -/
theorem lookup_total_deterministic_c8 (q : String) (n : Nat) :
    (get_relevant_info q = fallbackMsg
      ∨ ∃ kv, kv ∈ NETWORK_TROUBLESHOOTING_KB ∧ get_relevant_info q = kv.2)
    ∧ (List.replicate n q).map get_relevant_info
        = List.replicate n (get_relevant_info q) := by
  constructor
  · rcases hcase : lookupKB NETWORK_TROUBLESHOOTING_KB (pyLower q) with _ | c
    · left
      unfold get_relevant_info
      rw [hcase]
    · right
      obtain ⟨kv, hkv, hc⟩ := lookupKB_some_mem NETWORK_TROUBLESHOOTING_KB (pyLower q) c hcase
      refine ⟨kv, hkv, ?_⟩
      unfold get_relevant_info
      rw [hcase]
      exact hc.symm
  · rw [List.map_replicate]

/-- C9: lookup is invariant under letter-case of the query — any two
queries with the same lower-casing resolve identically — and every
trigger key of the knowledge base is already entirely lower-case. -/
theorem case_insensitive_c9 (q q2 : String) (h : pyLower q2 = pyLower q) :
    get_relevant_info q2 = get_relevant_info q
    ∧ ∀ kv ∈ NETWORK_TROUBLESHOOTING_KB, pyLower kv.1 = kv.1 := by
  refine ⟨?_, by decide⟩
  unfold get_relevant_info
  rw [h]

/-- Witness for C9: the upper-cased variant of a query resolves exactly
as the lower-cased one. -/
theorem case_insensitive_c9_witness :
    get_relevant_info "NO INTERNET TODAY" = get_relevant_info "no internet today" :=
  (case_insensitive_c9 "no internet today" "NO INTERNET TODAY" (by decide)).1

set_option maxRecDepth 100000 in
/-- C10: trigger matching is raw substring containment with no
word-boundary handling: the membership test succeeds exactly on a
prefix/pattern/suffix split of the haystack, the query
"what is my voip address" matches the "ip address" trigger inside the
larger word "voip", and the lookup returns the IP-address guide. -/
theorem raw_substring_match_c10 :
    (∀ hay pat : String,
      pyContains hay pat = true ↔ ∃ pre suf : String, hay = pre ++ (pat ++ suf))
    ∧ pyContains (pyLower "what is my voip address") "ip address" = true
    ∧ pyLower "what is my voip address" = "what is my vo" ++ ("ip address" ++ "")
    ∧ get_relevant_info "what is my voip address" = ipAddressDoc := by
  refine ⟨pyContains_spec, by decide, by decide, by decide⟩
